import Mathlib

/-!
# Verification of the options-news-platform derived-metrics core

Shallow embedding of the frontend's pure logic, translated from the
TypeScript sources in `options-news-app/src` (and the unnamed component
variants shipped alongside them):

* `NewsList.relativeTimeToHours` — the relative-time parser of
  `components/NewsList.tsx`.
* `NewsList.newsListFiltered`    — the 24-hour freshness filter of
  `components/NewsList.tsx`.
* `OptionSummaryCard.computeTotals` / `SymbolSummaryTable.computeTotals`
  — the two contract-aggregation helpers.
* the put/call ratio expressions of `OptionSummaryCard` and
  `SymbolSummaryTable`, and the volume-delta expression of
  `SymbolSummaryTable`.
* `ContractsTable`'s sort-and-slice rendering step (`Array.prototype.sort`
  sorts the underlying array in place).
* `client.fetchMultiSnapshot`'s HTTP status handling and `App.handleSearch`'s
  state transition.
* `TickerForm.handleSubmit`'s ticker normalization.

JavaScript numbers are modelled as `ℚ` (no NaN/Infinity is produced on the
parsed, finite inputs these functions receive), JS `string` as Lean
`String`, and `T | null | undefined` as `Option T`.
-/

/-! ## JS string primitives

`String.prototype.includes(pat)` is substring containment; we model it by a
direct scan over the character list.  `String.prototype.indexOf(pat) >= 0`
is the same predicate. -/

/-- Whether `pat` occurs as a contiguous substring of `s` (as character lists). -/
def listContainsSub (pat : List Char) : List Char → Bool
  | [] => pat.isEmpty
  | c :: cs => pat.isPrefixOf (c :: cs) || listContainsSub pat cs

/-- JS `s.includes(pat)` / `s.indexOf(pat) >= 0`. -/
def strIncludes (s pat : String) : Bool :=
  listContainsSub pat.toList s.toList

/-- JS `s.startsWith(pre)`. -/
def strStartsWith (s pre : String) : Bool :=
  pre.toList.isPrefixOf s.toList

/-- JS `s.toLowerCase()` (character-wise; the sources only feed it ASCII). -/
def jsToLower (s : String) : String :=
  String.mk (s.toList.map Char.toLower)

/-- JS `s.toUpperCase()` (character-wise; the sources only feed it ASCII). -/
def jsToUpper (s : String) : String :=
  String.mk (s.toList.map Char.toUpper)

/-- JS `s.trim()`: strip whitespace from both ends. -/
def jsTrim (s : String) : String :=
  String.mk (((s.toList.dropWhile Char.isWhitespace).reverse.dropWhile
    Char.isWhitespace).reverse)

namespace NewsList

/-! ## The relative-time parser (`components/NewsList.tsx`, lines 10–71)

The parser is decomposed into the stages the source performs in sequence:
falsy-input check plus `toLowerCase().trim()` (`normalizeLabel`), the
`"just now"` check and first `/(\d+)\s*([a-z]+)/` token extraction
(`findNumToken`), and the unit-classification `if` cascade (`classify`).
-/

/-- JS `parseInt(digits, 10)` on a non-empty string of decimal digits. -/
def digitsToNat (ds : List Char) : Nat :=
  ds.foldl (fun n c => n * 10 + (c.toNat - '0'.toNat)) 0

/-- One character of the regex class `[a-z]`. -/
def isLowerAlpha (c : Char) : Bool := 'a' ≤ c && c ≤ 'z'

/-- First match of `/(\d+)\s*([a-z]+)/`: scan left to right for a position
where a maximal digit run, optional whitespace, and a non-empty maximal
`[a-z]` run follow; return (numeric value of group 1, group 2).

Backtracking inside `\d+` or `\s*` can never produce a match that the
greedy reading misses (a shortened digit run is followed by a digit, a
shortened whitespace run by whitespace, neither of which `[a-z]+` accepts),
so the greedy scan below is the regex's exact semantics. -/
def findNumToken : List Char → Option (Nat × List Char)
  | [] => none
  | c :: cs =>
    if c.isDigit then
      let ds := (c :: cs).takeWhile Char.isDigit
      let afterDigits := (c :: cs).dropWhile Char.isDigit
      let afterSpaces := afterDigits.dropWhile Char.isWhitespace
      let alphas := afterSpaces.takeWhile isLowerAlpha
      if alphas.isEmpty then findNumToken cs
      else some (digitsToNat ds, alphas)
    else findNumToken cs

/-- Condition `t.includes("min") || unitToken === "m" || unitToken.startsWith("min")`
(source lines 31–35). -/
def minutesCond (t tok : String) : Bool :=
  strIncludes t "min" || tok == "m" || strStartsWith tok "min"

/-- Condition `t.includes("hour") || unitToken === "h" || unitToken.indexOf("hr") >= 0
|| unitToken === "hrs"` (source lines 40–45). -/
def hoursCond (t tok : String) : Bool :=
  strIncludes t "hour" || tok == "h" || strIncludes tok "hr" || tok == "hrs"

/-- Condition `t.includes("day") || unitToken === "d"` (source line 50). -/
def daysCond (t tok : String) : Bool :=
  strIncludes t "day" || tok == "d"

/-- Condition `t.includes("week") || unitToken.startsWith("w")` (source line 55). -/
def weeksCond (t tok : String) : Bool :=
  strIncludes t "week" || strStartsWith tok "w"

/-- Condition `t.includes("month") || unitToken.startsWith("mo")` (source line 60). -/
def monthsCond (t tok : String) : Bool :=
  strIncludes t "month" || strStartsWith tok "mo"

/-- Condition `t.includes("year") || unitToken.startsWith("y")` (source line 65). -/
def yearsCond (t tok : String) : Bool :=
  strIncludes t "year" || strStartsWith tok "y"

/-- The unit-classification cascade of source lines 30–70, in source order:
minutes, hours, days, weeks, months, years, else `null`. -/
def classify (t : String) (value : Nat) (tok : String) : Option ℚ :=
  if minutesCond t tok then some ((value : ℚ) / 60)
  else if hoursCond t tok then some ((value : ℚ))
  else if daysCond t tok then some ((value : ℚ) * 24)
  else if weeksCond t tok then some ((value : ℚ) * 7 * 24)
  else if monthsCond t tok then some ((value : ℚ) * 30 * 24)
  else if yearsCond t tok then some ((value : ℚ) * 365 * 24)
  else none

/-- Step `if (!relativeTime) return null;` followed by
`relativeTime.toLowerCase().trim()` (source lines 11–13); the only falsy
strings are the empty string. -/
def normalizeLabel : Option String → Option String
  | none => none
  | some s => if s = "" then none else some (jsTrim (jsToLower s))

/-- Source lines 15–70 on the normalized text: `"just now"` → 0, otherwise
extract the first number+token and classify it. -/
def parseCore (text : String) : Option ℚ :=
  if strIncludes text "just now" then some 0
  else
    match findNumToken text.toList with
    | none => none
    | some (value, tok) => classify text value (String.mk tok)

/-- Function `relativeTimeToHours` of `components/NewsList.tsx` lines 10–71. -/
def relativeTimeToHours (relativeTime : Option String) : Option ℚ :=
  (normalizeLabel relativeTime).bind parseCore

/-- The extraction stage in isolation: the `(value, unitToken)` pair the
parser obtains at source lines 20–24, or `none` when the parser never
reaches extraction (falsy input, `"just now"`, or no regex match). -/
def extractionStage (relativeTime : Option String) : Option (Nat × String) :=
  (normalizeLabel relativeTime).bind fun text =>
    if strIncludes text "just now" then none
    else (findNumToken text.toList).map (fun p => (p.1, String.mk p.2))

end NewsList

/-! ## Data model (`src/types.ts`) -/

/-- Record `NewsItem` of `types.ts` lines 67–72. -/
structure NewsItem where
  title : String
  publisher : Option String
  relativeTime : Option String
  link : String
deriving DecidableEq, Repr

/-- Record `OptionContract` of `types.ts` lines 36–46. -/
structure OptionContract where
  contractSymbol : String
  strike : ℚ
  lastPrice : ℚ
  bid : Option ℚ
  ask : Option ℚ
  volume : Option ℚ
  openInterest : Option ℚ
  impliedVolatility : Option ℚ
  inTheMoney : Bool
deriving DecidableEq, Repr

/-- Record `OptionsSnapshot` of `types.ts` lines 48–65 (the optional aggregate
fields at the end are never read by the components and are omitted). -/
structure OptionsSnapshot where
  ticker : String
  expiration : Option String
  underlying_price : Option ℚ
  volume : Option ℚ
  avg_volume_10d : Option ℚ
  avg_volume_3m : Option ℚ
  earnings_date : Option String
  calls : Option (List OptionContract)
  puts : Option (List OptionContract)
  note : Option String
deriving DecidableEq, Repr

/-- Record `SymbolSnapshot` of `types.ts` lines 90–98 (the optional `rating` and
`aiRating` fields are display-only and omitted). -/
structure SymbolSnapshot where
  ticker : String
  options : Option OptionsSnapshot
  news : List NewsItem
  pressReleases : List NewsItem
  error : Option String
deriving DecidableEq, Repr

/-- JS `x || 0` on a `number | null | undefined`: `null`, `undefined` and
`0` are falsy, so the expression yields `0` exactly when the value is
absent or zero, and the value itself otherwise. -/
def jsOrZero (x : Option ℚ) : ℚ :=
  match x with
  | none => 0
  | some v => if v = 0 then 0 else v

/-- JS truthiness of a `number | null | undefined`: present and nonzero
(`NaN`, which is also falsy, does not arise on these inputs). -/
def numTruthy (x : Option ℚ) : Bool :=
  match x with
  | none => false
  | some v => decide (v ≠ 0)

namespace NewsList

/-! ## The freshness filter (`components/NewsList.tsx`, lines 74–79) -/

/-- The predicate of the `items.filter` callback: parse the item's
relative time; drop the item when unparseable, else keep it iff the age is
at most 24 hours. -/
def keepFresh (item : NewsItem) : Bool :=
  match relativeTimeToHours item.relativeTime with
  | none => false
  | some hours => decide (hours ≤ 24)

/-- Step `const filtered = items.filter(...)` (source lines 75–79). -/
def newsListFiltered (items : List NewsItem) : List NewsItem :=
  items.filter keepFresh

end NewsList

namespace OptionSummaryCard

/-! ## `OptionSummaryCard` (unnamed component file, `computeTotals` at
lines 9–21, `ContractsTable` at lines 23–79, ratio at lines 93–96) -/

/-- Accumulator record `{ volume, openInterest }`. -/
structure Totals where
  volume : ℚ
  openInterest : ℚ
deriving DecidableEq, Repr

/-- Function `computeTotals` of the `OptionSummaryCard` file, lines 9–21:
absent or empty input yields zeros, otherwise a `reduce` accumulating
`c.volume || 0` and `c.openInterest || 0`. -/
def computeTotals (contracts : Option (List OptionContract)) : Totals :=
  match contracts with
  | none => { volume := 0, openInterest := 0 }
  | some l =>
    if l.isEmpty then { volume := 0, openInterest := 0 }
    else l.foldl
      (fun acc c =>
        { volume := acc.volume + jsOrZero c.volume
          openInterest := acc.openInterest + jsOrZero c.openInterest })
      { volume := 0, openInterest := 0 }

/-- The `putCallRatio` expression of `OptionSummaryCard` (lines 93–96):
`callTotals.openInterest > 0 ? putTotals.openInterest /
callTotals.openInterest : null`. -/
def putCallRatioOf (calls puts : Option (List OptionContract)) : Option ℚ :=
  let callTotals := computeTotals calls
  let putTotals := computeTotals puts
  if 0 < callTotals.openInterest then
    some (putTotals.openInterest / callTotals.openInterest)
  else none

/-- Insertion into a list already arranged by descending
`openInterest || 0`.  The sort below inserts elements from right to left
(`foldr`), so the element being inserted always precedes, in the original
array, everything already placed; putting it before the first element
whose key is `≤` its own therefore keeps original order among equal keys —
the stability ES2019 `Array.prototype.sort` guarantees for the comparator
`(b.openInterest||0) - (a.openInterest||0)`. -/
def insertOiDesc (c : OptionContract) : List OptionContract → List OptionContract
  | [] => [c]
  | d :: ds =>
    if jsOrZero d.openInterest ≤ jsOrZero c.openInterest then c :: d :: ds
    else d :: insertOiDesc c ds

/-- Stable sort by descending `openInterest || 0`, the effect of
`contracts.sort((a, b) => (b.openInterest || 0) - (a.openInterest || 0))`. -/
def sortOiDesc (l : List OptionContract) : List OptionContract :=
  l.foldr insertOiDesc []

/-- Rendering of `ContractsTable` (lines 27–35).  `Array.prototype.sort`
sorts the receiver IN PLACE and returns that same array; `.slice(0, 8)`
then copies the first eight entries.  The result pairs the displayed rows
(first component) with the state of the caller's `contracts` array after
the render (second component). -/
def contractsTableRender (contracts : Option (List OptionContract)) :
    List OptionContract × Option (List OptionContract) :=
  match contracts with
  | none => ([], none)
  | some l =>
    if l.isEmpty then ([], some l)
    else
      let sorted := sortOiDesc l
      (sorted.take 8, some sorted)

end OptionSummaryCard

namespace SymbolSummaryTable

/-! ## `SymbolSummaryTable` (`components/SymbolSummaryTable.tsx`;
the unnamed variant file has the identical `computeTotals`, `pcr` and
`volDeltaPct` expressions at lines 10–20 and 65–77) -/

/-- Accumulator record `{ volume, oi }` (source lines 26 and 33). -/
structure Totals where
  volume : ℚ
  oi : ℚ
deriving DecidableEq, Repr

/-- Function `computeTotals` of `SymbolSummaryTable.tsx`, lines 25–35. -/
def computeTotals (contracts : Option (List OptionContract)) : Totals :=
  match contracts with
  | none => { volume := 0, oi := 0 }
  | some l =>
    if l.isEmpty then { volume := 0, oi := 0 }
    else l.foldl
      (fun acc c =>
        { volume := acc.volume + jsOrZero c.volume
          oi := acc.oi + jsOrZero c.openInterest })
      { volume := 0, oi := 0 }

/-- The `pcr` expression of `SymbolSummaryTable.tsx` (lines 86–89):
`(callTotals.volume + callTotals.oi) > 0 ? (putTotals.volume +
putTotals.oi) / (callTotals.volume + callTotals.oi) : null`. -/
def pcrOf (calls puts : Option (List OptionContract)) : Option ℚ :=
  let callTotals := computeTotals calls
  let putTotals := computeTotals puts
  if 0 < callTotals.volume + callTotals.oi then
    some ((putTotals.volume + putTotals.oi) / (callTotals.volume + callTotals.oi))
  else none

/-- The `volDeltaPct` computation of `SymbolSummaryTable.tsx` (lines
83 and 91–93): starts as `null` and is assigned
`((opt.volume - opt.avg_volume_3m) / opt.avg_volume_3m) * 100` only when
`opt.avg_volume_3m` and `opt.volume` are both truthy (present and
nonzero). -/
def volumeDeltaPercent (volume avg_volume_3m : Option ℚ) : Option ℚ :=
  if numTruthy avg_volume_3m && numTruthy volume then
    some ((volume.getD 0 - avg_volume_3m.getD 0) / avg_volume_3m.getD 0 * 100)
  else none

end SymbolSummaryTable

/-- Modelled from the spec: §4.2's `volumeDeltaPercent(current, baseline)`
→ `((current − baseline) / baseline) × 100` when both are present and
baseline ≠ 0, else undefined — the behaviour the claim asserts, for
comparison against the code's `SymbolSummaryTable.volumeDeltaPercent`. -/
def volumeDeltaPercentSpec (volume avg_volume_3m : Option ℚ) : Option ℚ :=
  match volume, avg_volume_3m with
  | some v, some b => if b ≠ 0 then some ((v - b) / b * 100) else none
  | _, _ => none

namespace Client

/-! ## `api/client.ts` — batch snapshot request (lines 10–27) -/

/-- WHATWG fetch `Response.ok`: status in the inclusive range 200–299. -/
def resOk (status : Nat) : Bool :=
  200 ≤ status && status ≤ 299

/-- The response handling of `fetchMultiSnapshot` (lines 21–26): on a
non-ok status the promise rejects with
`` Error(`API error: ${res.status} ${text}`) ``, otherwise it resolves
with the parsed body. -/
def fetchMultiSnapshotResult (status : Nat) (bodyText : String)
    (body : List SymbolSnapshot) : Except String (List SymbolSnapshot) :=
  if resOk status then Except.ok body
  else Except.error ("API error: " ++ toString status ++ " " ++ bodyText)

end Client

namespace App

/-! ## `App.tsx` — `handleSearch` (lines 14–43) -/

/-- The pieces of `App` state that `handleSearch` writes. -/
structure AppState where
  snapshots : List SymbolSnapshot
  selected : Option SymbolSnapshot
  error : Option String
deriving DecidableEq, Repr

/-- The settled outcome of `handleSearch`: on resolution,
`setSnapshots(result); setSelected(result[0] ?? null)` with the error
cleared at entry (lines 22, 33–34); on rejection, `setError(err.message ||
"Failed to fetch data"); setSnapshots([]); setSelected(null)` (lines
37–39). -/
def handleSearchOutcome (result : Except String (List SymbolSnapshot))
    (_prev : AppState) : AppState :=
  match result with
  | Except.ok r => { snapshots := r, selected := r.head?, error := none }
  | Except.error msg =>
    { snapshots := []
      selected := none
      error := some (if msg = "" then "Failed to fetch data" else msg) }

end App

namespace TickerForm

/-! ## `TickerForm.handleSubmit` (NewsImpactTable file, lines 96–112) -/

/-- A character of the separator class `[,\s]`. -/
def isSepChar (c : Char) : Bool :=
  c == ',' || c.isWhitespace

/-- Split at every separator character, keeping the (possibly empty)
chunks between them.  JS `split(/[,\s]+/)` merges separator runs instead
of emitting the interior empty chunks, but the very next
`.filter(Boolean)` step removes every empty chunk, so the composed
pipeline is the same; splitting at single characters keeps the model
structurally recursive. -/
def splitSep : List Char → List Char → List String
  | [], acc => [String.mk acc.reverse]
  | c :: cs, acc =>
    if isSepChar c then String.mk acc.reverse :: splitSep cs []
    else splitSep cs (c :: acc)

/-- The ticker normalization of `handleSubmit` (lines 98–101):
`tickerInput.split(/[,\s]+/).map(t => t.trim().toUpperCase()).filter(Boolean)`. -/
def tickerTokens (input : String) : List String :=
  ((splitSep input.toList []).map (fun t => jsToUpper (jsTrim t))).filter
    (fun t => t ≠ "")

/-- Function `handleSubmit` (lines 96–112): normalize the input; if no tickers
remain, return without calling `onSearch` (`none`); otherwise call
`onSearch` with the normalized tickers (`some`). -/
def handleSubmit (input : String) : Option (List String) :=
  let tickers := tickerTokens input
  if tickers = [] then none else some tickers

end TickerForm

/-! ## Helper definitions and lemmas for the theorems -/

/-- Sum of the contracts' `volume` fields, absent counted as 0. -/
def volSum (l : List OptionContract) : ℚ :=
  (l.map (fun c => c.volume.getD 0)).sum

/-- Sum of the contracts' `openInterest` fields, absent counted as 0. -/
def oiSum (l : List OptionContract) : ℚ :=
  (l.map (fun c => c.openInterest.getD 0)).sum

theorem jsOrZero_eq_getD (x : Option ℚ) : jsOrZero x = x.getD 0 := by
  cases x with
  | none => rfl
  | some v =>
    by_cases h : v = 0 <;> simp [jsOrZero, h]

theorem volSum_cons (c : OptionContract) (l : List OptionContract) :
    volSum (c :: l) = c.volume.getD 0 + volSum l := by
  simp [volSum]

theorem oiSum_cons (c : OptionContract) (l : List OptionContract) :
    oiSum (c :: l) = c.openInterest.getD 0 + oiSum l := by
  simp [oiSum]

theorem card_totals_foldl (l : List OptionContract) (a b : ℚ) :
    l.foldl
      (fun acc c =>
        { volume := acc.volume + jsOrZero c.volume
          openInterest := acc.openInterest + jsOrZero c.openInterest })
      ({ volume := a, openInterest := b } : OptionSummaryCard.Totals) =
      { volume := a + volSum l, openInterest := b + oiSum l } := by
  induction l generalizing a b with
  | nil => simp [volSum, oiSum]
  | cons c cs ih =>
    rw [List.foldl_cons, ih]
    simp only [volSum_cons, oiSum_cons, jsOrZero_eq_getD]
    congr 1 <;> ring

theorem table_totals_foldl (l : List OptionContract) (a b : ℚ) :
    l.foldl
      (fun acc c =>
        { volume := acc.volume + jsOrZero c.volume
          oi := acc.oi + jsOrZero c.openInterest })
      ({ volume := a, oi := b } : SymbolSummaryTable.Totals) =
      { volume := a + volSum l, oi := b + oiSum l } := by
  induction l generalizing a b with
  | nil => simp [volSum, oiSum]
  | cons c cs ih =>
    rw [List.foldl_cons, ih]
    simp only [volSum_cons, oiSum_cons, jsOrZero_eq_getD]
    congr 1 <;> ring

theorem card_computeTotals_eq (contracts : Option (List OptionContract)) :
    OptionSummaryCard.computeTotals contracts =
      { volume := volSum (contracts.getD [])
        openInterest := oiSum (contracts.getD []) } := by
  cases contracts with
  | none => simp [OptionSummaryCard.computeTotals, volSum, oiSum]
  | some l =>
    cases l with
    | nil => simp [OptionSummaryCard.computeTotals, volSum, oiSum]
    | cons c cs =>
      simp only [OptionSummaryCard.computeTotals, List.isEmpty_cons,
        Option.getD_some, if_false, Bool.false_eq_true, card_totals_foldl]
      congr 1 <;> ring

theorem table_computeTotals_eq (contracts : Option (List OptionContract)) :
    SymbolSummaryTable.computeTotals contracts =
      { volume := volSum (contracts.getD [])
        oi := oiSum (contracts.getD []) } := by
  cases contracts with
  | none => simp [SymbolSummaryTable.computeTotals, volSum, oiSum]
  | some l =>
    cases l with
    | nil => simp [SymbolSummaryTable.computeTotals, volSum, oiSum]
    | cons c cs =>
      simp only [SymbolSummaryTable.computeTotals, List.isEmpty_cons,
        Option.getD_some, if_false, Bool.false_eq_true, table_totals_foldl]
      congr 1 <;> ring

/-! ## Claim theorems -/

/-- C5: for every list of option contracts (including the empty list and
an absent list), each `computeTotals` variant returns the sum of the
`volume` fields (absent counted as 0) paired with the sum of the
`openInterest` fields (absent counted as 0); empty or absent input yields
zero totals. -/
theorem computeTotals_sums (contracts : Option (List OptionContract)) :
    OptionSummaryCard.computeTotals contracts =
      { volume := volSum (contracts.getD [])
        openInterest := oiSum (contracts.getD []) } ∧
    SymbolSummaryTable.computeTotals contracts =
      { volume := volSum (contracts.getD [])
        oi := oiSum (contracts.getD []) } ∧
    OptionSummaryCard.computeTotals none =
      { volume := 0, openInterest := 0 } ∧
    SymbolSummaryTable.computeTotals none = { volume := 0, oi := 0 } ∧
    OptionSummaryCard.computeTotals (some []) =
      { volume := 0, openInterest := 0 } ∧
    SymbolSummaryTable.computeTotals (some []) = { volume := 0, oi := 0 } := by
  refine ⟨card_computeTotals_eq contracts, table_computeTotals_eq contracts,
    rfl, rfl, ?_, ?_⟩ <;> simp [OptionSummaryCard.computeTotals,
      SymbolSummaryTable.computeTotals]

/-- A call contract with traded volume 10 but zero open interest. -/
def volOnlyCall : OptionContract :=
  { contractSymbol := "C240621C00100000"
    strike := 100
    lastPrice := 1
    bid := none
    ask := none
    volume := some 10
    openInterest := some 0
    impliedVolatility := none
    inTheMoney := false }

/-- A put contract with traded volume 5 but zero open interest. -/
def volOnlyPut : OptionContract :=
  { contractSymbol := "C240621P00100000"
    strike := 100
    lastPrice := 1
    bid := none
    ask := none
    volume := some 5
    openInterest := some 0
    impliedVolatility := none
    inTheMoney := false }

/-- C1 counterexample: with call open-interest total 0 (so the claim says
no ratio is shown anywhere), `SymbolSummaryTable` still displays the
ratio 1/2, because it divides the volume+open-interest sums and guards on
their sum, not on open interest alone.  (`OptionSummaryCard` does behave
as the claim says on this input.) -/
theorem pcr_not_oi_only_in_table :
    (OptionSummaryCard.computeTotals (some [volOnlyCall])).openInterest = 0 ∧
    SymbolSummaryTable.pcrOf (some [volOnlyCall]) (some [volOnlyPut]) =
      some (1 / 2) ∧
    OptionSummaryCard.putCallRatioOf (some [volOnlyCall]) (some [volOnlyPut]) =
      none := by
  refine ⟨?_, ?_, ?_⟩
  · rw [card_computeTotals_eq]
    simp [oiSum, volOnlyCall]
  · rw [show SymbolSummaryTable.pcrOf (some [volOnlyCall]) (some [volOnlyPut]) =
      (if 0 < (SymbolSummaryTable.computeTotals (some [volOnlyCall])).volume +
          (SymbolSummaryTable.computeTotals (some [volOnlyCall])).oi then
        some (((SymbolSummaryTable.computeTotals (some [volOnlyPut])).volume +
            (SymbolSummaryTable.computeTotals (some [volOnlyPut])).oi) /
          ((SymbolSummaryTable.computeTotals (some [volOnlyCall])).volume +
            (SymbolSummaryTable.computeTotals (some [volOnlyCall])).oi))
      else none) from rfl]
    rw [table_computeTotals_eq, table_computeTotals_eq]
    simp only [volSum, oiSum, volOnlyCall, volOnlyPut]
    norm_num
  · rw [show OptionSummaryCard.putCallRatioOf (some [volOnlyCall]) (some [volOnlyPut]) =
      (if 0 < (OptionSummaryCard.computeTotals (some [volOnlyCall])).openInterest then
        some ((OptionSummaryCard.computeTotals (some [volOnlyPut])).openInterest /
          (OptionSummaryCard.computeTotals (some [volOnlyCall])).openInterest)
      else none) from rfl]
    rw [card_computeTotals_eq, card_computeTotals_eq]
    simp only [volSum, oiSum, volOnlyCall, volOnlyPut]
    norm_num

/-- C1 amended: each component's displayed put/call ratio, characterized
over the contract sums.  `OptionSummaryCard` shows
`putTotals.openInterest / callTotals.openInterest` exactly when the call
open-interest total is positive; `SymbolSummaryTable` instead shows
`(putTotals.volume + putTotals.oi) / (callTotals.volume + callTotals.oi)`
exactly when the call volume+open-interest total is positive. -/
theorem pcr_characterization_by_component (cs ps : List OptionContract) :
    OptionSummaryCard.putCallRatioOf (some cs) (some ps) =
      (if 0 < oiSum cs then some (oiSum ps / oiSum cs) else none) ∧
    SymbolSummaryTable.pcrOf (some cs) (some ps) =
      (if 0 < volSum cs + oiSum cs then
        some ((volSum ps + oiSum ps) / (volSum cs + oiSum cs))
      else none) := by
  constructor
  · show (if 0 < (OptionSummaryCard.computeTotals (some cs)).openInterest then
        some ((OptionSummaryCard.computeTotals (some ps)).openInterest /
          (OptionSummaryCard.computeTotals (some cs)).openInterest)
      else none) = _
    rw [card_computeTotals_eq, card_computeTotals_eq]
    simp
  · show (if 0 < (SymbolSummaryTable.computeTotals (some cs)).volume +
          (SymbolSummaryTable.computeTotals (some cs)).oi then
        some (((SymbolSummaryTable.computeTotals (some ps)).volume +
            (SymbolSummaryTable.computeTotals (some ps)).oi) /
          ((SymbolSummaryTable.computeTotals (some cs)).volume +
            (SymbolSummaryTable.computeTotals (some cs)).oi))
      else none) = _
    rw [table_computeTotals_eq, table_computeTotals_eq]
    simp

/-- C2: the documented input/output table of the relative-time parser:
"just now" → 0, "23m ago" → 23/60, "2d ago" → 48, "3 weeks ago" → 504,
"2mo ago" → 1440, absent input → unparseable, "soon" → unparseable. -/
theorem relativeTimeToHours_examples :
    NewsList.relativeTimeToHours (some "just now") = some 0 ∧
    NewsList.relativeTimeToHours (some "23m ago") = some (23 / 60) ∧
    NewsList.relativeTimeToHours (some "2d ago") = some 48 ∧
    NewsList.relativeTimeToHours (some "3 weeks ago") = some 504 ∧
    NewsList.relativeTimeToHours (some "2mo ago") = some 1440 ∧
    NewsList.relativeTimeToHours none = none ∧
    NewsList.relativeTimeToHours (some "soon") = none := by
  refine ⟨rfl, rfl, ?_, ?_, ?_, rfl, rfl⟩
  · rw [show NewsList.relativeTimeToHours (some "2d ago") =
      some ((2 : ℚ) * 24) from rfl]
    norm_num
  · rw [show NewsList.relativeTimeToHours (some "3 weeks ago") =
      some ((3 : ℚ) * 7 * 24) from rfl]
    norm_num
  · rw [show NewsList.relativeTimeToHours (some "2mo ago") =
      some ((2 : ℚ) * 30 * 24) from rfl]
    norm_num

/-- C3: the minutes condition precedes the months condition.  (a) Whenever
the parser's extraction stage yields unit token exactly `"m"`, the parser
returns `value/60` hours, whatever the rest of the label says.  (b) A
token starting with `"mo"` that matches none of the earlier unit
conditions (minutes, hours, days, weeks) is classified as months at
`value × 720` hours. -/
theorem minutes_before_months :
    (∀ r v, NewsList.extractionStage r = some (v, "m") →
      NewsList.relativeTimeToHours r = some ((v : ℚ) / 60)) ∧
    (∀ t tok v, strStartsWith tok "mo" = true →
      NewsList.minutesCond t tok = false →
      NewsList.hoursCond t tok = false →
      NewsList.daysCond t tok = false →
      NewsList.weeksCond t tok = false →
      NewsList.classify t v tok = some ((v : ℚ) * 720)) := by
  constructor
  · intro r v h
    cases r with
    | none => simp [NewsList.extractionStage, NewsList.normalizeLabel] at h
    | some s =>
      by_cases hs : s = ""
      · simp [NewsList.extractionStage, NewsList.normalizeLabel, hs] at h
      · simp only [NewsList.extractionStage, NewsList.normalizeLabel,
          if_neg hs, Option.some_bind] at h
        by_cases hj : strIncludes (jsTrim (jsToLower s)) "just now"
        · simp [hj] at h
        · simp only [hj, Bool.false_eq_true, if_false, Option.map_eq_some'] at h
          obtain ⟨⟨v', tok'⟩, hfind, heq⟩ := h
          obtain ⟨hv, htok⟩ := Prod.mk.injEq .. ▸ heq
          simp only [NewsList.relativeTimeToHours, NewsList.normalizeLabel,
            if_neg hs, Option.some_bind, NewsList.parseCore, hj,
            Bool.false_eq_true, if_false, hfind]
          rw [show v' = v from hv, htok]
          simp [NewsList.classify, NewsList.minutesCond]
  · intro t tok v hmo hmin hh hd hw
    simp only [NewsList.classify, hmin, hh, hd, hw, Bool.false_eq_true,
      if_false, NewsList.monthsCond, hmo, Bool.or_true, if_true]
    congr 1
    ring

/-- Witness for C3: "23m ago" extracts token `"m"` and parses to 23/60
hours, and "2mo ago"'s token `"mo"`, matching no earlier unit, is
classified at 2 × 720 hours. -/
theorem minutes_before_months_witness :
    NewsList.relativeTimeToHours (some "23m ago") = some ((23 : ℚ) / 60) ∧
    NewsList.classify "2mo ago" 2 "mo" = some ((2 : ℚ) * 720) :=
  ⟨minutes_before_months.1 (some "23m ago") 23 (by decide),
   minutes_before_months.2 "2mo ago" "mo" 2 (by decide) (by decide)
     (by decide) (by decide) (by decide)⟩

theorem classify_nonneg (t : String) (v : Nat) (tok : String) (q : ℚ)
    (h : NewsList.classify t v tok = some q) : 0 ≤ q := by
  unfold NewsList.classify at h
  split_ifs at h <;> simp only [Option.some.injEq] at h <;> subst h <;>
    positivity

/-- C10: the relative-time parser is total (a Lean function defined by
structural recursion on its input) and never produces a negative age:
every result is either `none` or a value ≥ 0 hours. -/
theorem relativeTimeToHours_nonneg (r : Option String) (q : ℚ)
    (h : NewsList.relativeTimeToHours r = some q) : 0 ≤ q := by
  cases r with
  | none => simp [NewsList.relativeTimeToHours, NewsList.normalizeLabel] at h
  | some s =>
    by_cases hs : s = ""
    · simp [NewsList.relativeTimeToHours, NewsList.normalizeLabel, hs] at h
    · simp only [NewsList.relativeTimeToHours, NewsList.normalizeLabel,
        if_neg hs, Option.some_bind, NewsList.parseCore] at h
      by_cases hj : strIncludes (jsTrim (jsToLower s)) "just now"
      · rw [if_pos hj] at h
        simp only [Option.some.injEq] at h
        subst h
        norm_num
      · rw [if_neg hj] at h
        cases hfind : NewsList.findNumToken (jsTrim (jsToLower s)).toList with
        | none => rw [hfind] at h; exact absurd h (by simp)
        | some p =>
          rw [hfind] at h
          exact classify_nonneg _ p.1 _ q h

/-- Witness for C10: "2d ago" parses to 48 hours, and 48 ≥ 0. -/
theorem relativeTimeToHours_nonneg_witness :
    NewsList.relativeTimeToHours (some "2d ago") = some 48 ∧ (0 : ℚ) ≤ 48 := by
  have he : NewsList.relativeTimeToHours (some "2d ago") = some 48 := by
    rw [show NewsList.relativeTimeToHours (some "2d ago") =
      some ((2 : ℚ) * 24) from rfl]
    norm_num
  exact ⟨he, relativeTimeToHours_nonneg (some "2d ago") 48 he⟩

theorem keepFresh_iff (item : NewsItem) :
    NewsList.keepFresh item = true ↔
      ∃ h, NewsList.relativeTimeToHours item.relativeTime = some h ∧
        h ≤ 24 := by
  unfold NewsList.keepFresh
  cases hrt : NewsList.relativeTimeToHours item.relativeTime with
  | none => simp
  | some hours => simp [hrt]

/-- C4: the freshness filter returns an order-preserving sublist of its
input; every retained item has a parsed age ≤ 24 hours (so every
unparseable item is dropped), and every item of the input whose parsed
age is ≤ 24 hours is retained. -/
theorem newsListFiltered_subseq_le24 (items : List NewsItem) :
    (NewsList.newsListFiltered items).Sublist items ∧
    (∀ it, it ∈ NewsList.newsListFiltered items →
      ∃ h, NewsList.relativeTimeToHours it.relativeTime = some h ∧
        h ≤ 24) ∧
    (∀ it, it ∈ items →
      (∃ h, NewsList.relativeTimeToHours it.relativeTime = some h ∧
        h ≤ 24) →
      it ∈ NewsList.newsListFiltered items) := by
  refine ⟨List.filter_sublist items, ?_, ?_⟩
  · intro it hmem
    rw [NewsList.newsListFiltered, List.mem_filter] at hmem
    exact (keepFresh_iff it).mp hmem.2
  · intro it hmem hage
    rw [NewsList.newsListFiltered, List.mem_filter]
    exact ⟨hmem, (keepFresh_iff it).mpr hage⟩

/-- Five demonstration news items with ages 0 h, 12 h, 24 h, 25 h and
unparseable. -/
def demoNewsItems : List NewsItem :=
  [{ title := "a", publisher := none, relativeTime := some "just now", link := "la" },
   { title := "b", publisher := none, relativeTime := some "12h ago", link := "lb" },
   { title := "c", publisher := none, relativeTime := some "24h ago", link := "lc" },
   { title := "d", publisher := none, relativeTime := some "25h ago", link := "ld" },
   { title := "e", publisher := none, relativeTime := some "soon", link := "le" }]

/-- The 12-hour-old item of `demoNewsItems`. -/
def demoItemB : NewsItem :=
  { title := "b", publisher := none, relativeTime := some "12h ago", link := "lb" }

/-- Witness for C4: in the demonstration list, the 12-hour item is
retained by the filter. -/
theorem newsListFiltered_subseq_le24_witness :
    demoItemB ∈ NewsList.newsListFiltered demoNewsItems := by
  refine (newsListFiltered_subseq_le24 demoNewsItems).2.2 _ (by decide)
    ⟨12, ?_, by norm_num⟩
  rw [show NewsList.relativeTimeToHours demoItemB.relativeTime =
    some ((12 : ℕ) : ℚ) from rfl]
  norm_num

/-- C6 counterexample: with a present current volume of 0 and a present,
nonzero baseline of 100, the claim (and spec §4.2) demand the delta
−100 %, but the code's truthiness guard on `opt.volume` leaves the delta
undefined. -/
theorem volumeDeltaPercent_zero_current_cex :
    SymbolSummaryTable.volumeDeltaPercent (some 0) (some 100) = none ∧
    volumeDeltaPercentSpec (some 0) (some 100) = some (-100) := by
  constructor
  · simp [SymbolSummaryTable.volumeDeltaPercent, numTruthy]
  · simp only [volumeDeltaPercentSpec]
    norm_num

/-- C6 amended: the percentage volume delta is
`((current − baseline) / baseline) × 100` when both values are present
and BOTH are nonzero; it is undefined in every other case: when the
present current volume is zero (for any baseline), when the baseline is
zero (present, for any current value), and when either value is absent. -/
theorem volumeDeltaPercent_characterization (v b : ℚ) (x : Option ℚ)
    (hv : v ≠ 0) (hb : b ≠ 0) :
    SymbolSummaryTable.volumeDeltaPercent (some v) (some b) =
      some ((v - b) / b * 100) ∧
    (∀ base : Option ℚ,
      SymbolSummaryTable.volumeDeltaPercent (some 0) base = none) ∧
    (∀ cur : Option ℚ,
      SymbolSummaryTable.volumeDeltaPercent cur (some 0) = none) ∧
    SymbolSummaryTable.volumeDeltaPercent none x = none ∧
    SymbolSummaryTable.volumeDeltaPercent x none = none := by
  refine ⟨?_, ?_, ?_, ?_, ?_⟩
  · simp [SymbolSummaryTable.volumeDeltaPercent, numTruthy, hv, hb]
  · intro base
    cases base <;>
      simp [SymbolSummaryTable.volumeDeltaPercent, numTruthy]
  · intro cur
    simp [SymbolSummaryTable.volumeDeltaPercent, numTruthy]
  · simp [SymbolSummaryTable.volumeDeltaPercent, numTruthy]
  · cases x <;> simp [SymbolSummaryTable.volumeDeltaPercent, numTruthy]

/-- Witness for C6 amended: current 150 against baseline 100 is +50 %. -/
theorem volumeDeltaPercent_characterization_witness :
    SymbolSummaryTable.volumeDeltaPercent (some 150) (some 100) =
      some 50 := by
  have h := (volumeDeltaPercent_characterization 150 100 none
    (by norm_num) (by norm_num)).1
  rw [h]
  norm_num

theorem string_append_data (a b : String) : (a ++ b).data = a.data ++ b.data := by
  cases a
  cases b
  rfl

theorem string_append_assoc (a b c : String) : a ++ b ++ c = a ++ (b ++ c) := by
  cases a
  cases b
  cases c
  show String.mk _ = String.mk _
  rw [List.append_assoc]

theorem string_append_ne_empty_of_left (a b : String) (ha : a.data ≠ []) :
    a ++ b ≠ "" := by
  intro h
  have hd := congrArg String.data h
  rw [string_append_data] at hd
  cases hal : a.data with
  | nil => exact ha hal
  | cons x xs => rw [hal] at hd; simp at hd

/-- C7: on a non-2xx status, the batch-snapshot call rejects with a
message containing the literal status code and the response body text,
and the application's error path then displays that message with an empty
snapshot list and no selected snapshot, whatever was displayed before. -/
theorem fetch_error_clears_and_reports (status : Nat) (bodyText : String)
    (body : List SymbolSnapshot) (prev : App.AppState)
    (h : Client.resOk status = false) :
    ∃ msg,
      Client.fetchMultiSnapshotResult status bodyText body =
        Except.error msg ∧
      (∃ pre post, msg = pre ++ toString status ++ post) ∧
      (∃ pre, msg = pre ++ bodyText) ∧
      App.handleSearchOutcome (Except.error msg) prev =
        { snapshots := [], selected := none, error := some msg } := by
  refine ⟨"API error: " ++ toString status ++ " " ++ bodyText, ?_, ?_, ?_, ?_⟩
  · simp [Client.fetchMultiSnapshotResult, h]
  · exact ⟨"API error: ", " " ++ bodyText, by
      rw [string_append_assoc ("API error: " ++ toString status) " " bodyText,
        string_append_assoc "API error: " (toString status) (" " ++ bodyText)]⟩
  · exact ⟨"API error: " ++ toString status ++ " ", rfl⟩
  · have hne : "API error: " ++ toString status ++ " " ++ bodyText ≠ "" := by
      rw [string_append_assoc, string_append_assoc]
      exact string_append_ne_empty_of_left "API error: " _ (by decide)
    simp [App.handleSearchOutcome, hne]

/-- A previously displayed snapshot for the C7 witness. -/
def demoSnapshot : SymbolSnapshot :=
  { ticker := "AAPL", options := none, news := [], pressReleases := [],
    error := none }

/-- Witness for C7: a 404 with body "boom" starting from a state that had
one snapshot displayed. -/
theorem fetch_error_clears_and_reports_witness :
    ∃ msg,
      Client.fetchMultiSnapshotResult 404 "boom" [] = Except.error msg ∧
      (∃ pre post, msg = pre ++ toString 404 ++ post) ∧
      (∃ pre, msg = pre ++ "boom") ∧
      App.handleSearchOutcome (Except.error msg)
          { snapshots := [demoSnapshot], selected := some demoSnapshot,
            error := none } =
        { snapshots := [], selected := none, error := some msg } :=
  fetch_error_clears_and_reports 404 "boom" [] _ (by decide)

/-- C8: submitting the ticker form splits the input on commas and
whitespace, trims and upper-cases each chunk and drops empty chunks
(input producing ["AAPL", "nvda"] is sent as ["AAPL", "NVDA"]); an input
reduced to no tickers sends no request at all. -/
theorem handleSubmit_normalization :
    TickerForm.handleSubmit "AAPL, nvda" = some ["AAPL", "NVDA"] ∧
    (∀ input, TickerForm.tickerTokens input = [] →
      TickerForm.handleSubmit input = none) ∧
    TickerForm.handleSubmit " , ," = none ∧
    (∀ input t, t ∈ TickerForm.tickerTokens input →
      t ≠ "" ∧ ∃ raw, raw ∈ TickerForm.splitSep input.toList [] ∧
        t = jsToUpper (jsTrim raw)) := by
  refine ⟨by decide, ?_, by decide, ?_⟩
  · intro input hempty
    simp [TickerForm.handleSubmit, hempty]
  · intro input t hmem
    rw [TickerForm.tickerTokens, List.mem_filter] at hmem
    obtain ⟨hmap, hne⟩ := hmem
    refine ⟨by simpa using hne, ?_⟩
    rw [List.mem_map] at hmap
    obtain ⟨raw, hraw, hup⟩ := hmap
    exact ⟨raw, hraw, hup.symm⟩

/-- Witness for C8: the empty input is a no-op, and the token "NVDA"
produced by the input "AAPL, nvda" is the nonempty upper-cased trim of a
raw chunk of that input. -/
theorem handleSubmit_normalization_witness :
    TickerForm.handleSubmit "" = none ∧
    ("NVDA" ≠ "" ∧ ∃ raw, raw ∈ TickerForm.splitSep "AAPL, nvda".toList [] ∧
      "NVDA" = jsToUpper (jsTrim raw)) :=
  ⟨handleSubmit_normalization.2.1 "" (by decide),
   handleSubmit_normalization.2.2.2 "AAPL, nvda" "NVDA" (by decide)⟩

/-- A contract with the smaller open interest (1), listed first. -/
def lowOiContract : OptionContract :=
  { contractSymbol := "LOW"
    strike := 100
    lastPrice := 1
    bid := none
    ask := none
    volume := some 0
    openInterest := some 1
    impliedVolatility := none
    inTheMoney := false }

/-- A contract with the larger open interest (5), listed second. -/
def highOiContract : OptionContract :=
  { contractSymbol := "HIGH"
    strike := 100
    lastPrice := 1
    bid := none
    ask := none
    volume := some 0
    openInterest := some 5
    impliedVolatility := none
    inTheMoney := false }

/-- C9 (code bug): rendering `ContractsTable` does NOT leave the
snapshot's contracts array unchanged.  `contracts.sort(...)` sorts the
props array in place, so after rendering the ascending-by-open-interest
input `[lowOiContract, highOiContract]` the snapshot's array has been
reordered to `[highOiContract, lowOiContract]`, a different list. -/
theorem contractsTable_mutates_input :
    (OptionSummaryCard.contractsTableRender
      (some [lowOiContract, highOiContract])).2 =
      some [highOiContract, lowOiContract] ∧
    ([highOiContract, lowOiContract] : List OptionContract) ≠
      [lowOiContract, highOiContract] := by
  constructor
  · decide
  · decide
